import Mathlib

/-!
Verification development for the `bcd-auto-pr` script (`auto-pr.py`).

The script is a PR-creation wizard for the browser-compat-data repository.
This file gives a shallow embedding of its pure logic:

* `find_file_by_feature` / `_find_feature_in_file` — locating the data file
  that defines a dotted feature identifier, by walking a directory tree with
  several hardcoded special cases;
* `get_category` — prefix-based category resolution over an ordered table;
* `get_branch_name` — branch-name derivation;
* `get_description` — templated PR title/description assembly, including a
  model of Python's `str.format` with named placeholders.

Python exceptions are modelled with `Except PyErr`; Python dictionaries with
association lists (`alookup` is `dict.get` / `dict.__getitem__` resolution);
JSON values with the inductive `JVal`, whose `truthy` mirrors Python
truthiness (`if not obj`).
-/

set_option autoImplicit false

namespace AutoPr

/-- Python exception kinds that the embedded code can raise. -/
inductive PyErr where
  | keyError
  | indexError
  | attributeError
  | typeError
  | valueError
  | isADirectoryError
deriving DecidableEq

/-- First-match association-list lookup: the behaviour of a Python `dict`
lookup for the (duplicate-free) literal dict tables of the script. -/
def alookup {α : Type} : List (String × α) → String → Option α
  | [], _ => none
  | (k, v) :: r, key => if k = key then some v else alookup r key

-- ---------------------------------------------------------------------------
-- String helpers mirroring the Python string operations used by the script.
-- ---------------------------------------------------------------------------

/-- `s.startswith(p)` on Python strings. -/
def strStartsWith (s p : String) : Bool := p.data.isPrefixOf s.data

/-- `s.endswith(p)` on Python strings. -/
def strEndsWith (s p : String) : Bool := p.data.isSuffixOf s.data

/-- Replace every (leftmost, non-overlapping) occurrence of `pat`, with
explicit fuel so the recursion is structural (each step consumes at least
one character, so `fuel = l.length` never runs out). -/
def replaceAllFuel (pat repl : List Char) : Nat → List Char → List Char
  | 0, l => l
  | _ + 1, [] => []
  | n + 1, c :: cs =>
      if pat.isPrefixOf (c :: cs) ∧ pat ≠ [] then
        repl ++ replaceAllFuel pat repl n (List.drop (pat.length - 1) cs)
      else
        c :: replaceAllFuel pat repl n cs

/-- Replace every (leftmost, non-overlapping) occurrence of `pat` in the
list, as Python `str.replace` does for a non-empty pattern. -/
def replaceAll (pat repl l : List Char) : List Char :=
  replaceAllFuel pat repl l.length l

/-- Python `s.replace(pat, repl)` (all occurrences; the script never calls it
with an empty pattern). -/
def strReplace (s pat repl : String) : String :=
  String.mk (replaceAll pat.data repl.data s.data)

/-- Is `sub` a contiguous sublist of `l`? -/
def listInfix {α : Type} [DecidableEq α] (sub : List α) : List α → Bool
  | [] => sub.isPrefixOf []
  | c :: cs => sub.isPrefixOf (c :: cs) || listInfix sub cs

/-- Python `sub in s` (substring containment). -/
def strContains (s sub : String) : Bool := listInfix sub.data s.data

/-- Helper for `splitDot`: `acc` holds the (reversed) characters of the
current segment. -/
def splitDotAux : List Char → List Char → List String
  | acc, [] => [String.mk acc.reverse]
  | acc, c :: cs =>
      if c = '.' then String.mk acc.reverse :: splitDotAux [] cs
      else splitDotAux (c :: acc) cs

/-- Python `s.split('.')`: always returns at least one segment. -/
def splitDot (s : String) : List String := splitDotAux [] s.data

/-- Python `".".join(l)`. -/
def joinDot : List String → String
  | [] => ""
  | [x] => x
  | x :: y :: r => x ++ "." ++ joinDot (y :: r)

-- ---------------------------------------------------------------------------
-- JSON values and `_find_feature_in_file`.
-- ---------------------------------------------------------------------------

/-- A parsed JSON value, as produced by `json.load`. -/
inductive JVal where
  | null
  | bool (b : Bool)
  | num (n : Int)
  | str (s : String)
  | arr (elems : List JVal)
  | obj (fields : List (String × JVal))

/-- Python truthiness of a JSON value (`if not obj`). -/
def truthy : JVal → Bool
  | JVal.null => false
  | JVal.bool b => b
  | JVal.num n => n ≠ 0
  | JVal.str s => s ≠ ""
  | JVal.arr l => !l.isEmpty
  | JVal.obj l => !l.isEmpty

/-- Key lookup on a JSON object's field list (Python `dict.get`). -/
def jlookup : List (String × JVal) → String → Option JVal
  | [], _ => none
  | (k, v) :: r, key => if k = key then some v else jlookup r key

/-- The loop body of `_find_feature_in_file` (lines 253-256):
`obj = obj.get(part); if not obj: return False`.  Calling `.get` on a
non-dict raises `AttributeError`. -/
def walkFeature : JVal → List String → Except PyErr Bool
  | _, [] => Except.ok true
  | JVal.obj fs, p :: ps =>
      match jlookup fs p with
      | none => Except.ok false
      | some v => if truthy v then walkFeature v ps else Except.ok false
  | _, _ :: _ => Except.error PyErr.attributeError

/-- `_find_feature_in_file(feature, file_path)` applied to the already-parsed
JSON content of the file (lines 248-258): split the feature on dots and walk
the parts as nested keys. -/
def findFeatureInFile (feature : String) (j : JVal) : Except PyErr Bool :=
  walkFeature j (splitDot feature)

/-- Pure key-path presence: every segment exists as a nested key, with no
regard for the truthiness of the values along the way.  (This is the reading
used by the spec's words "contains the full dotted path as nested keys"; the
code's `_find_feature_in_file` additionally requires every value to be
truthy.) -/
def hasKeyPath : JVal → List String → Bool
  | _, [] => true
  | JVal.obj fs, p :: ps =>
      match jlookup fs p with
      | none => false
      | some v => hasKeyPath v ps
  | _, _ :: _ => false

/-- Some step of the key-path walk reaches a present key whose value is falsy
(`False`, `None`, `0`, `{}`, `[]`, `""`). -/
def someStepFalsy : JVal → List String → Bool
  | _, [] => false
  | JVal.obj fs, p :: ps =>
      match jlookup fs p with
      | none => false
      | some v => !truthy v || someStepFalsy v ps
  | _, _ :: _ => false

-- ---------------------------------------------------------------------------
-- Filesystem model and `find_file_by_feature`.
-- ---------------------------------------------------------------------------

/-- A directory entry: a (parsed) JSON file, or a subdirectory. -/
inductive Entry where
  | file (content : JVal)
  | dir (entries : List (String × Entry))

/-- A directory: named entries.  The data root (`Path('.')` in the script,
the BCD checkout) is a `Dir`. -/
abbrev Dir := List (String × Entry)

/-- Name lookup in a directory. -/
def dlookup : Dir → String → Option Entry
  | [], _ => none
  | (k, v) :: r, key => if k = key then some v else dlookup r key

/-- The walk's directory cursor.  `none` models a path that the code
"descended" into through a non-directory entry (`os.path.exists(dir_path)`
is true for a plain file as well, and the loop then continues with a cursor
under which nothing exists). -/
def clookup : Option Dir → String → Option Entry
  | none, _ => none
  | some d, key => dlookup d key

/-- `os.path.exists(p) and _find_feature_in_file(feature, p)`-style check of
a single candidate file `name` at the cursor, returning `path` on success.
A directory where a file is expected makes `open` raise. -/
def checkFile (feature : String) (cwd : Option Dir) (name : String)
    (path : List String) : Except PyErr (Option (List String)) :=
  match clookup cwd name with
  | none => Except.ok none
  | some (Entry.dir _) => Except.error PyErr.isADirectoryError
  | some (Entry.file j) =>
      match findFeatureInFile feature j with
      | Except.error e => Except.error e
      | Except.ok true => Except.ok (some path)
      | Except.ok false => Except.ok none

/-- The `api.*` fallback file `cwd / "_globals" / (parts[1] + ".json")`
(lines 285-288).  The two-level path exists only when `_globals` is a real
subdirectory containing the entry. -/
def checkGlobals (feature : String) (cwd : Option Dir) (cwdPath : List String)
    (p1 : String) : Except PyErr (Option (List String)) :=
  match clookup cwd ("_globals") with
  | some (Entry.dir g) =>
      checkFile feature (some g) (p1 ++ ".json") (cwdPath ++ ["_globals", p1 ++ ".json"])
  | _ => Except.ok none

/-- The special-case fallbacks of `find_file_by_feature` (lines 283-300),
reached when at some step neither `<part>.json` nor the subdirectory `<part>`
exists.  `parts` is the full split of the original feature; note
`parts[1]`/`parts[3]` raise `IndexError` when absent, and the
`type_` special case removes every occurrence of `"type_"`
(Python `str.replace`), not only a prefix. -/
def fallback (feature : String) (parts : List String) (cwd : Option Dir)
    (cwdPath : List String) : Except PyErr (Option (List String)) :=
  let step1 : Except PyErr (Option (List String)) :=
    if parts.headD "" = "api" then
      match parts.get? 1 with
      | none => Except.error PyErr.indexError
      | some p1 => checkGlobals feature cwd cwdPath p1
    else Except.ok none
  match step1 with
  | Except.error e => Except.error e
  | Except.ok (some p) => Except.ok (some p)
  | Except.ok none =>
    let step2 : Except PyErr (Option (List String)) :=
      if strStartsWith feature ("html.elements.input.type_") then
        match parts.get? 3 with
        | none => Except.error PyErr.indexError
        | some p3 =>
            let nm := strReplace p3 ("type_") ("") ++ ".json"
            checkFile feature cwd nm (cwdPath ++ [nm])
      else Except.ok none
    match step2 with
    | Except.error e => Except.error e
    | Except.ok (some p) => Except.ok (some p)
    | Except.ok none =>
      if strStartsWith feature ("javascript.builtins.Intl.")
          || strStartsWith feature ("javascript.builtins.Temporal.") then
        match parts.get? 3 with
        | none => Except.error PyErr.indexError
        | some p3 =>
            let nm := p3 ++ ".json"
            checkFile feature cwd nm (cwdPath ++ [nm])
      else Except.ok none

/-- The main loop of `find_file_by_feature` (lines 264-303).  `cwdPath` is
the list of path segments of the cursor relative to the data root;
`Except.ok none` models the Python `return False` ("Not Found"). -/
def findLoop (feature : String) (parts : List String) (skip : Bool) :
    Option Dir → List String → List String → Except PyErr (Option (List String))
  | _, _, [] => Except.ok none
  | cwd, cwdPath, part :: rest =>
      let step2 : Except PyErr (Option (List String)) :=
        match clookup cwd part with
        | some (Entry.dir d) => findLoop feature parts skip (some d) (cwdPath ++ [part]) rest
        | some (Entry.file _) => findLoop feature parts skip none (cwdPath ++ [part]) rest
        | none => fallback feature parts cwd cwdPath
      match clookup cwd (part ++ ".json") with
      | none => step2
      | some ent =>
          if skip then Except.ok (some (cwdPath ++ [part ++ ".json"]))
          else
            match ent with
            | Entry.dir _ => Except.error PyErr.isADirectoryError
            | Entry.file j =>
                match findFeatureInFile feature j with
                | Except.error e => Except.error e
                | Except.ok true => Except.ok (some (cwdPath ++ [part ++ ".json"]))
                | Except.ok false => step2

/-- `find_file_by_feature(feature, skip_file_search)` over a modelled data
root (lines 260-303). -/
def findFileByFeature (feature : String) (skip : Bool) (root : Dir) :
    Except PyErr (Option (List String)) :=
  findLoop feature (splitDot feature) skip (some root) [] (splitDot feature)

/-- The loop state after consuming the segments `pre` by pure directory
descent: at each of those steps the json-file check did not fire (the file
was absent, or present with the feature not found in it and `skip` unset)
and a real subdirectory with the segment's name existed.  Returns the cursor
after the descent, or `none` if the descent as described does not happen. -/
def pureDescent (feature : String) (skip : Bool) :
    Option Dir → List String → Option (Option Dir)
  | cwd, [] => some cwd
  | cwd, part :: rest =>
      let fileOk : Bool :=
        match clookup cwd (part ++ ".json") with
        | none => true
        | some (Entry.dir _) => false
        | some (Entry.file j) =>
            !skip &&
              (match findFeatureInFile feature j with
               | Except.ok false => true
               | _ => false)
      if fileOk then
        match clookup cwd part with
        | some (Entry.dir d) => pureDescent feature skip (some d) rest
        | _ => none
      else none

-- ---------------------------------------------------------------------------
-- Category resolution (`categories` table, lines 122-147; `get_category`,
-- lines 194-202).
-- ---------------------------------------------------------------------------

/-- The resolved category: `{"key": key, **value}` in the code. -/
structure Category where
  key : String
  title : String
  label : Option String
deriving DecidableEq

/-- The `categories` table, in declaration order (more specific entries come
after less specific ones, by design). -/
def categoriesList : List (String × String × Option String) :=
  [("api", "API", some ("data:api")),
   ("css.at-rules", "CSS at-rule", some ("data:css")),
   ("css.selectors", "CSS selector", some ("data:css")),
   ("css.types", "CSS value type", some ("data:css")),
   ("css.properties", "CSS property", some ("data:css")),
   ("html", "HTML feature", some ("data:html")),
   ("html.elements", "HTML element", some ("data:html")),
   ("html.manifest", "HTML manifest property", some ("data:html")),
   ("http", "HTTP feature", some ("data:http")),
   ("http.headers", "HTTP header", some ("data:http")),
   ("javascript", "JavaScript feature", some ("data:js")),
   ("javascript.builtins", "JavaScript builtin", some ("data:js")),
   ("javascript.operators", "JavaScript operator", some ("data:js")),
   ("mathml", "MathML feature", some ("data:mathml")),
   ("mathml.elements", "MathML element", some ("data:mathml")),
   ("svg", "SVG feature", some ("data:svg")),
   ("svg.elements", "SVG element", some ("data:svg")),
   ("webdriver.commands", "Web Driver command", some ("data:webdriver")),
   ("webextensions", "Web Extensions feature", some ("data:webext")),
   ("webextensions.api", "Web Extensions interface", some ("data:webext")),
   ("webextensions.manifest", "Web Extensions manifest property", some ("data:webext")),
   ("webassembly", "WebAssembly feature", some ("data:wasm")),
   ("webassembly.api", "WebAssembly interface", some ("data:wasm"))]

/-- `get_category(feature)` (lines 194-202): scan the whole table in order,
keeping the last prefix match; default to the empty category. -/
def getCategory (feature : String) : Category :=
  let cat := categoriesList.foldl
    (fun acc kv => if strStartsWith feature kv.1 then some ⟨kv.1, kv.2.1, kv.2.2⟩ else acc)
    none
  match cat with
  | none => ⟨"", "feature", none⟩
  | some c => c

/-- Spec-side comparator for `get_category`, written from the claim's words:
the entry whose key is a prefix of the identifier and occurs *last* in
table-declaration order among all matching entries. -/
def lastPrefixMatch (feature : String) : List (String × String × Option String) → Option Category
  | [] => none
  | kv :: rest =>
      match lastPrefixMatch feature rest with
      | some c => some c
      | none =>
          if strStartsWith feature kv.1 then some ⟨kv.1, kv.2.1, kv.2.2⟩ else none

-- ---------------------------------------------------------------------------
-- Python `str.format` with named placeholders.
-- ---------------------------------------------------------------------------

/-- The literal characters the formatter treats specially. -/
def lb : Char := Char.ofNat 123

/-- Closing counterpart of `lb`. -/
def rb : Char := Char.ofNat 125

/-- Scanner state of the formatter: plain text, just after an opening brace,
inside a field name (accumulated reversed), or just after a closing brace. -/
inductive FmtMode where
  | lit
  | sawL
  | name (acc : List Char)
  | sawR

/-- The state machine of Python's `str.format` restricted to the simple
named/positional fields the script's templates use: `\x7b\x7b` and `\x7d\x7d`
are literal braces, `\x7bname\x7d` substitutes the named argument
(`KeyError` when absent), a stray brace is a `ValueError`. -/
def pyFmtGo (fields : List (String × String)) : FmtMode → List Char → Except PyErr (List Char)
  | FmtMode.lit, [] => Except.ok []
  | FmtMode.lit, c :: cs =>
      if c = lb then pyFmtGo fields FmtMode.sawL cs
      else if c = rb then pyFmtGo fields FmtMode.sawR cs
      else
        match pyFmtGo fields FmtMode.lit cs with
        | Except.error e => Except.error e
        | Except.ok r => Except.ok (c :: r)
  | FmtMode.sawL, [] => Except.error PyErr.valueError
  | FmtMode.sawL, c :: cs =>
      if c = lb then
        match pyFmtGo fields FmtMode.lit cs with
        | Except.error e => Except.error e
        | Except.ok r => Except.ok (lb :: r)
      else if c = rb then
        match alookup fields "" with
        | none => Except.error PyErr.keyError
        | some v =>
            match pyFmtGo fields FmtMode.lit cs with
            | Except.error e => Except.error e
            | Except.ok r => Except.ok (v.data ++ r)
      else pyFmtGo fields (FmtMode.name [c]) cs
  | FmtMode.name _, [] => Except.error PyErr.valueError
  | FmtMode.name acc, c :: cs =>
      if c = rb then
        match alookup fields (String.mk acc.reverse) with
        | none => Except.error PyErr.keyError
        | some v =>
            match pyFmtGo fields FmtMode.lit cs with
            | Except.error e => Except.error e
            | Except.ok r => Except.ok (v.data ++ r)
      else if c = lb then Except.error PyErr.valueError
      else pyFmtGo fields (FmtMode.name (c :: acc)) cs
  | FmtMode.sawR, [] => Except.error PyErr.valueError
  | FmtMode.sawR, c :: cs =>
      if c = rb then
        match pyFmtGo fields FmtMode.lit cs with
        | Except.error e => Except.error e
        | Except.ok r => Except.ok (rb :: r)
      else Except.error PyErr.valueError

/-- `template.format(**fields)`. -/
def pyFormat (tmpl : String) (fields : List (String × String)) : Except PyErr String :=
  match pyFmtGo fields FmtMode.lit tmpl.data with
  | Except.error e => Except.error e
  | Except.ok cs => Except.ok (String.mk cs)

/-- The named placeholders a template references, mirroring the scan of
`pyFmtGo` (the collection stops at the first malformation, where the
formatter errors out regardless of the field set). -/
def refNamesGo : FmtMode → List Char → List String
  | FmtMode.lit, [] => []
  | FmtMode.lit, c :: cs =>
      if c = lb then refNamesGo FmtMode.sawL cs
      else if c = rb then refNamesGo FmtMode.sawR cs
      else refNamesGo FmtMode.lit cs
  | FmtMode.sawL, [] => []
  | FmtMode.sawL, c :: cs =>
      if c = lb then refNamesGo FmtMode.lit cs
      else if c = rb then "" :: refNamesGo FmtMode.lit cs
      else refNamesGo (FmtMode.name [c]) cs
  | FmtMode.name _, [] => []
  | FmtMode.name acc, c :: cs =>
      if c = rb then String.mk acc.reverse :: refNamesGo FmtMode.lit cs
      else if c = lb then []
      else refNamesGo (FmtMode.name (c :: acc)) cs
  | FmtMode.sawR, [] => []
  | FmtMode.sawR, c :: cs =>
      if c = rb then refNamesGo FmtMode.lit cs
      else []

/-- The placeholders referenced by a template string. -/
def refNames (tmpl : String) : List String := refNamesGo FmtMode.lit tmpl.data

-- ---------------------------------------------------------------------------
-- The template tables (lines 26-120).
-- ---------------------------------------------------------------------------

/-- An apostrophe character (several source templates contain one). -/
def apos : Char := Char.ofNat 39

/-- An apostrophe as a one-character string. -/
def aposS : String := String.mk [apos]

/-- `mdn_bcd_collector` (line 29): the collector blurb with the collector
version (read at startup from the collector checkout's `package.json`,
modelled as the parameter `cv`) already `.format`ted in, as the module-level
code does. -/
def mdnBcdCollector (cv : String) : String :=
  "[mdn-bcd-collector](https://mdn-bcd-collector.gooborg.com) project (v" ++ cv ++ ")"

/-- A `title`/`description` template pair. -/
structure TemplatePair where
  title : String
  description : String

/-- One entry of the `pr_types` table: the flat template pair when present,
the sub-scope pairs when present, the Feature Removal reasons, and the
branch suffix. -/
structure PrTypeEntry where
  title : Option String
  description : Option String
  entire : Option TemplatePair
  subfeatures : Option TemplatePair
  by_flag : Option TemplatePair
  by_feature : Option TemplatePair
  reasons : List (String × String)
  branch_suffix : Option String

/-- The canned Feature Removal reason texts (lines 69-72). -/
def removalReasons (cv : String) : List (String × String) :=
  [("Irrelevant",
    "Per the [data guidelines](https://github.com/mdn/browser-compat-data/blob/main/docs/data-guidelines/index.md#removal-of-irrelevant-features), this feature can be considered irrelevant and may be removed from BCD accordingly. Even if the current data suggests that the feature is supported, lack of support has been confirmed by the "
      ++ mdnBcdCollector cv ++ "."),
   ("Non-Interface",
    "This feature is a type (ex. a dictionary, enum, mixin, constant or WebIDL typedef) that we have explicitly stated not to document separately from the feature(s) that depend on it, as they are virtually invisible to the end developer.")]

/-- The `pr_types` table (lines 33-86), in declaration order. -/
def prTypes (cv : String) : List (String × PrTypeEntry) :=
  [("Compat Data Corrections",
    ⟨some ("Update {browser} data for {title}"),
     some ("This PR updates and corrects version values for {browser_full} for the {feature_description}."),
     none, none, none, none, [], some ("corrections")⟩),
   ("Metadata Corrections",
    ⟨some ("Update metadata for {title}"),
     some ("This PR updates and corrects the metadata (spec URLs, descriptions, statuses, etc.) for the {feature_description}."),
     none, none, none, none, [], some ("metadata-corrections")⟩),
   ("New Entry",
    ⟨none, none,
     some ⟨"Add missing {title} feature", "This PR adds the missing {feature_description}."⟩,
     some ⟨"Add missing features for {title}", "This PR adds the missing features of the {feature_description}."⟩,
     none, none, [], some ("additions")⟩),
   ("Real Values Additions",
    ⟨some ("Add {browser} versions for {title}"),
     some ("This PR replaces `true`/`null` values with exact version numbers (or `false`) for {browser_full} for the {feature_description}."),
     none, none, none, none, [], some ("real-values")⟩),
   ("Feature Removal",
    ⟨none, none,
     some ⟨"Remove {title} from BCD", "This PR removes the {feature_description} from BCD."⟩,
     some ⟨"Remove subfeatures of {title} from BCD", "This PR removes the unsupported subfeatures of the {feature_description} from BCD."⟩,
     none, none, removalReasons cv, some ("removal")⟩),
   ("Flag Removal",
    ⟨none, none, none, none,
     some ⟨"Remove irrelevant `{flag}` flag in {browser}",
           "This PR removes irrelevant flag data for the `{flag}` flag of {browser_full} as per the corresponding [data guidelines](https://github.com/mdn/browser-compat-data/blob/main/docs/data-guidelines/index.md#removal-of-irrelevant-flag-data). This PR was created from results of the `remove-redundant-flags` script."⟩,
     some ⟨"Remove irrelevant {browser} flag data for {title}",
           "This PR removes irrelevant flag data for {browser_full} for the {feature_description} as per the corresponding [data guidelines](https://github.com/mdn/browser-compat-data/blob/main/docs/data-guidelines/index.md#removal-of-irrelevant-flag-data). This PR was created from results of the `remove-redundant-flags` script."⟩,
     [], some ("flag-removal")⟩)]

/-- One entry of the `data_sources` table: a description template and an
optional source-data template. -/
structure DataSource where
  descr : String
  src : Option String

/-- The `data_sources` table (lines 89-120). -/
def dataSources (cv : String) : List (String × DataSource) :=
  [("mdn-bcd-collector",
    ⟨"The data comes from the " ++ mdnBcdCollector cv
      ++ ".\n\n_Check out the [collector" ++ aposS
      ++ "s guide on how to review this PR](https://github.com/openwebdocs/mdn-bcd-collector#reviewing-bcd-changes)._",
     some ("Tests Used: {source}")⟩),
   ("runtime-compat",
    ⟨"The data comes from the " ++ mdnBcdCollector cv
      ++ ", using results collected via [UnJS" ++ aposS
      ++ " runtime-compat project](https://github.com/unjs/runtime-compat)."
      ++ "\n\n_Check out the [collector" ++ aposS
      ++ "s guide on how to review this PR](https://github.com/openwebdocs/mdn-bcd-collector#reviewing-bcd-changes)._",
     some ("Tests Used: {source}")⟩),
   ("Manual",
    ⟨"The data comes from manual testing, running test code through BrowserStack, SauceLabs, custom VMs and/or locally.",
     some ("Test Code: {source}")⟩),
   ("Commit",
    ⟨"The data comes from a commit in the browser" ++ aposS
      ++ "s source code, mapped to a version number using available tooling or via the commit timestamp.",
     some ("Commit: {source}")⟩),
   ("Bug",
    ⟨"The data comes from a bug in the web browser" ++ aposS ++ "s bug tracker.",
     some ("Bug: {source}")⟩),
   ("Issue Fix",
    ⟨"This fixes #{source}, which contains the supporting evidence for this change.", none⟩),
   ("Mirror",
    ⟨"This sets the downstream browser(s) to mirror from their upstream counterpart.", none⟩),
   ("Earliest Range from Commit",
    ⟨"This sets the feature(s) to a version range based upon the date that the feature was added to BCD with the intent of replacing `true` values with ranged values to eliminate `true` values from BCD.",
     some ("Commit/PR Adding the Feature: {source}")⟩)]

-- ---------------------------------------------------------------------------
-- Config, feature titles/descriptions, branch names.
-- ---------------------------------------------------------------------------

/-- A normalized browser record (`{"id": k, "name": ..., "long_name": ...}`). -/
structure Browser where
  id : String
  name : String
  long_name : String

/-- The `source` sub-record of the config (`{"type": ..., "data": ...}`);
an empty `type` models the unset initial value. -/
structure Source where
  type : String
  data : String

/-- The wizard's config dict as it stands when `get_description` and
`get_branch_name` run.  String-typed keys are carried directly.  The dict
values that no reachable template ever substitutes (`category`, `file`,
`labels`, `description`, `content_update`, `auto_stage`) are carried as their
`str()` renderings, since only their key's presence in the merged field set
is observable.  `feature_description` and `title` are `Option`s because the
flag-removal-by-flag path of the wizard never adds those keys to the dict. -/
structure Config where
  pr_type : String
  feature : String
  category_repr : String
  file_repr : String
  branch : String
  labels_repr : String
  description_repr : String
  browser : Browser
  source : Source
  content_update_repr : String
  additional_notes : String
  auto_stage_repr : String
  flag_removal_type : String
  flag : String
  feature_addition_scope : String
  feature_removal_scope : String
  feature_removal_reason : String
  feature_description : Option String
  title : Option String

/-- Python `str()` of the `source` sub-dict (never substituted by a reachable
template; rendered for completeness). -/
def sourceRepr (s : Source) : String :=
  "\x7b" ++ aposS ++ "type" ++ aposS ++ ": " ++ aposS ++ s.type ++ aposS
    ++ ", " ++ aposS ++ "data" ++ aposS ++ ": " ++ aposS ++ s.data ++ aposS ++ "\x7d"

/-- `_get_subfeature(feature, category)` (lines 204-209): strip the category
key (every occurrence of `key + "."`, as `str.replace` does), split on dots,
and return the head segment and the re-joined rest. -/
def getSubfeature (feature : String) (cat : Category) : String × String :=
  let subfeature := strReplace feature (cat.key ++ ".") ("")
  match splitDot subfeature with
  | [] => ("", "")
  | [x] => (x, "")
  | x :: y :: r => (x, joinDot (y :: r))

/-- Python `str()` of the subfeature pair (a two-element list). -/
def subfeatureRepr (p : String × String) : String :=
  "[" ++ aposS ++ p.1 ++ aposS ++ ", " ++ aposS ++ p.2 ++ aposS ++ "]"

/-- Python `str()` of a category dict (only ever substituted if a feature
string itself contains a placeholder; rendered for completeness). -/
def categoryRepr (cat : Category) : String :=
  "\x7b" ++ aposS ++ "key" ++ aposS ++ ": " ++ aposS ++ cat.key ++ aposS
    ++ ", " ++ aposS ++ "title" ++ aposS ++ ": " ++ aposS ++ cat.title ++ aposS ++ "\x7d"

/-- `get_feature_description(feature, category)` (lines 211-217).  The code
builds an f-string and then calls `.format(subfeature=..., category=...)` on
the result, so a fatal format error is possible if the feature text itself
contains braces. -/
def getFeatureDescription (feature : String) (cat : Category) : Except PyErr String :=
  let sub := getSubfeature feature cat
  let fields := [("subfeature", subfeatureRepr sub), ("category", categoryRepr cat)]
  if sub.2 ≠ "" then
    if strEndsWith sub.2 ("_static") then
      pyFormat ("`" ++ strReplace sub.2 ("_static") ("") ++ "` static method of the `"
        ++ sub.1 ++ "` " ++ cat.title) fields
    else
      pyFormat ("`" ++ sub.2 ++ "` member of the `" ++ sub.1 ++ "` " ++ cat.title) fields
  else
    pyFormat ("`" ++ sub.1 ++ "` " ++ cat.title) fields

/-- `get_feature_title(feature, category)` (lines 219-225).  `category` is
`none` when the config's category is still its falsy initial value. -/
def getFeatureTitle (feature : String) (category : Option Category) : Except PyErr String :=
  match category with
  | none => Except.ok feature
  | some cat =>
      let sub := getSubfeature feature cat
      if sub.2 ≠ "" then Except.ok feature
      else
        pyFormat (sub.1 ++ " " ++ cat.title)
          [("subfeature", subfeatureRepr sub), ("category", categoryRepr cat)]

/-- `get_collector_test_url(feature)` (lines 243-246). -/
def getCollectorTestUrl (feature : String) : String :=
  "https://mdn-bcd-collector.gooborg.com/tests/"
    ++ strReplace (strReplace feature (".") ("/")) ("/worker_support") ("?exposure=Worker")

/-- `pr_types[pr_type]` (raises `KeyError` for an unknown PR type). -/
def prTypeLookup (cv : String) (pt : String) : Except PyErr PrTypeEntry :=
  match alookup (prTypes cv) pt with
  | some e => Except.ok e
  | none => Except.error PyErr.keyError

/-- `get_branch_name(config)` (lines 227-241). -/
def getBranchName (cv : String) (c : Config) : Except PyErr String :=
  if c.flag_removal_type = "by_flag" then
    Except.ok ("flagremoval/" ++ strReplace c.flag (".") ("-") ++ "/" ++ c.browser.id)
  else
    let branch_name := strReplace (strReplace c.feature (".") ("/")) ("*") ("")
    match prTypeLookup cv c.pr_type with
    | Except.error e => Except.error e
    | Except.ok e =>
        let bid := c.browser.id
        if bid ≠ "" then
          match e.branch_suffix with
          | some s =>
              if s ≠ "" then Except.ok (branch_name ++ "/" ++ bid ++ "-" ++ s)
              else Except.ok (branch_name ++ "/" ++ bid)
          | none => Except.ok (branch_name ++ "/" ++ bid)
        else
          match e.branch_suffix with
          | some s =>
              if s ≠ "" then Except.ok (branch_name ++ "/" ++ s)
              else Except.ok branch_name
          | none => Except.ok branch_name

/-- Spec-side comparator for `get_branch_name`'s non-flag path, written from
the claim's words: start from the feature with dots turned to slashes and
stars removed, then append according to which of browser id / branch suffix
are set. -/
def branchNameSpec (c : Config) (suffix : Option String) : String :=
  let base := strReplace (strReplace c.feature (".") ("/")) ("*") ("")
  let suffixSet : Bool := match suffix with
    | some s => s != ""
    | none => false
  if c.browser.id ≠ "" then
    if suffixSet then base ++ "/" ++ c.browser.id ++ "-" ++ (suffix.getD "")
    else base ++ "/" ++ c.browser.id
  else
    if suffixSet then base ++ "/" ++ (suffix.getD "")
    else base

-- ---------------------------------------------------------------------------
-- `get_description` (lines 321-356), staged.
-- ---------------------------------------------------------------------------

/-- `pr_types['New Entry'][scope]['title'/'description']`: the dict's other
key holds a plain string, so indexing it with `['title']` is a `TypeError`;
any other scope is a `KeyError`. -/
def newEntryScope : String → Except PyErr TemplatePair
  | "entire" => Except.ok ⟨"Add missing {title} feature", "This PR adds the missing {feature_description}."⟩
  | "subfeatures" => Except.ok ⟨"Add missing features for {title}", "This PR adds the missing features of the {feature_description}."⟩
  | "branch_suffix" => Except.error PyErr.typeError
  | _ => Except.error PyErr.keyError

/-- `pr_types['Feature Removal'][scope]` likewise; `'reasons'` is a dict
without a `'title'` key, hence a `KeyError`. -/
def featureRemovalScope : String → Except PyErr TemplatePair
  | "entire" => Except.ok ⟨"Remove {title} from BCD", "This PR removes the {feature_description} from BCD."⟩
  | "subfeatures" => Except.ok ⟨"Remove subfeatures of {title} from BCD", "This PR removes the unsupported subfeatures of the {feature_description} from BCD."⟩
  | "branch_suffix" => Except.error PyErr.typeError
  | _ => Except.error PyErr.keyError

/-- `pr_types['Flag Removal'][flag_removal_type]` likewise. -/
def flagRemovalScope : String → Except PyErr TemplatePair
  | "by_flag" =>
      Except.ok ⟨"Remove irrelevant `{flag}` flag in {browser}",
        "This PR removes irrelevant flag data for the `{flag}` flag of {browser_full} as per the corresponding [data guidelines](https://github.com/mdn/browser-compat-data/blob/main/docs/data-guidelines/index.md#removal-of-irrelevant-flag-data). This PR was created from results of the `remove-redundant-flags` script."⟩
  | "by_feature" =>
      Except.ok ⟨"Remove irrelevant {browser} flag data for {title}",
        "This PR removes irrelevant flag data for {browser_full} for the {feature_description} as per the corresponding [data guidelines](https://github.com/mdn/browser-compat-data/blob/main/docs/data-guidelines/index.md#removal-of-irrelevant-flag-data). This PR was created from results of the `remove-redundant-flags` script."⟩
  | "branch_suffix" => Except.error PyErr.typeError
  | _ => Except.error PyErr.keyError

/-- Template selection: lines 322-335 of `get_description`. -/
def selectTemplates (cv : String) (c : Config) : Except PyErr (String × String) :=
  match prTypeLookup cv c.pr_type with
  | Except.error e => Except.error e
  | Except.ok e =>
      let t0 := e.title.getD ""
      let d0 := e.description.getD ""
      if c.pr_type = "New Entry" then
        match newEntryScope c.feature_addition_scope with
        | Except.error er => Except.error er
        | Except.ok sub => Except.ok (sub.title, sub.description)
      else if c.pr_type = "Feature Removal" then
        match featureRemovalScope c.feature_removal_scope with
        | Except.error er => Except.error er
        | Except.ok sub =>
            let reason := (alookup (removalReasons cv) c.feature_removal_reason).getD
              c.feature_removal_reason
            Except.ok (sub.title, sub.description ++ " " ++ reason)
      else if c.pr_type = "Flag Removal" then
        match flagRemovalScope c.flag_removal_type with
        | Except.error er => Except.error er
        | Except.ok sub => Except.ok (sub.title, sub.description)
      else Except.ok (t0, d0)

/-- Lines 340-341 of `get_description`: unless the PR type is Feature
Removal, append the data source's description template (formatted with the
source data) to the description. -/
def augmentDescPart (c : Config) (sd : DataSource) (d : String) :
    Except PyErr String :=
  if c.pr_type = "Feature Removal" then Except.ok d
  else
    match pyFormat sd.descr [("source", c.source.data)] with
    | Except.error e => Except.error e
    | Except.ok s => Except.ok (d ++ " " ++ s)

/-- Lines 342-343 of `get_description`: when the data source has a
source-data template, append it as a new paragraph. -/
def augmentSrcPart (c : Config) (sd : DataSource) (d1 : String) :
    Except PyErr String :=
  match sd.src with
  | none => Except.ok d1
  | some st =>
      match pyFormat st [("source", c.source.data)] with
      | Except.error e => Except.error e
      | Except.ok s => Except.ok (d1 ++ "\n\n" ++ s)

/-- Source augmentation: lines 337-345 of `get_description`. -/
def augmentSource (cv : String) (c : Config) (d : String) : Except PyErr String :=
  if c.source.type = "" then Except.ok d
  else
    match alookup (dataSources cv) c.source.type with
    | none => Except.ok (d ++ " " ++ c.source.data)
    | some sd =>
        match augmentDescPart c sd d with
        | Except.error e => Except.error e
        | Except.ok d1 => augmentSrcPart c sd d1

/-- Spec-side comparator for claim C5: the same source augmentation with the
description-template append removed unconditionally. -/
def augmentSourceNoSrcDesc (cv : String) (c : Config) (d : String) : Except PyErr String :=
  if c.source.type = "" then Except.ok d
  else
    match alookup (dataSources cv) c.source.type with
    | none => Except.ok (d ++ " " ++ c.source.data)
    | some sd =>
        match sd.src with
        | none => Except.ok d
        | some st =>
            match pyFormat st [("source", c.source.data)] with
            | Except.error e => Except.error e
            | Except.ok s => Except.ok (d ++ "\n\n" ++ s)

/-- The merged substitution field set of lines 347-351: every config key
except `browser`, plus the synthesized `browser` (short name) and
`browser_full` (long name). -/
def mergedFields (c : Config) : List (String × String) :=
  [("pr_type", c.pr_type),
   ("feature", c.feature),
   ("category", c.category_repr),
   ("file", c.file_repr),
   ("branch", c.branch),
   ("labels", c.labels_repr),
   ("description", c.description_repr),
   ("source", sourceRepr c.source),
   ("content_update", c.content_update_repr),
   ("additional_notes", c.additional_notes),
   ("auto_stage", c.auto_stage_repr),
   ("flag_removal_type", c.flag_removal_type),
   ("flag", c.flag),
   ("feature_addition_scope", c.feature_addition_scope),
   ("feature_removal_scope", c.feature_removal_scope),
   ("feature_removal_reason", c.feature_removal_reason)]
  ++ (match c.feature_description with
      | some s => [("feature_description", s)]
      | none => [])
  ++ (match c.title with
      | some s => [("title", s)]
      | none => [])
  ++ [("browser", c.browser.name), ("browser_full", c.browser.long_name)]

/-- `get_description(config)` up to the returned pair: template selection,
source augmentation, placeholder substitution of the title and of the built
description, and the trailing Additional Notes paragraph (lines 321-356,
before the final `title + '\n\n' + description`). -/
def getTitleDesc (cv : String) (c : Config) : Except PyErr (String × String) :=
  match selectTemplates cv c with
  | Except.error e => Except.error e
  | Except.ok td =>
      match augmentSource cv c td.2 with
      | Except.error e => Except.error e
      | Except.ok d1 =>
          let fields := mergedFields c
          match pyFormat td.1 fields with
          | Except.error e => Except.error e
          | Except.ok t =>
              match pyFormat d1 fields with
              | Except.error e => Except.error e
              | Except.ok d2 =>
                  let d3 :=
                    if c.additional_notes ≠ "" then
                      d2 ++ "\n\nAdditional Notes: " ++ c.additional_notes
                    else d2
                  Except.ok (t, d3)

/-- Pipeline variant for claim C7: `get_description` with the
Additional-Notes step removed. -/
def getTitleDescNoNotes (cv : String) (c : Config) : Except PyErr (String × String) :=
  match selectTemplates cv c with
  | Except.error e => Except.error e
  | Except.ok td =>
      match augmentSource cv c td.2 with
      | Except.error e => Except.error e
      | Except.ok d1 =>
          let fields := mergedFields c
          match pyFormat td.1 fields with
          | Except.error e => Except.error e
          | Except.ok t =>
              match pyFormat d1 fields with
              | Except.error e => Except.error e
              | Except.ok d2 => Except.ok (t, d2)

/-- Pipeline variant for claim C5: `get_description` with the
source-description append removed (uses `augmentSourceNoSrcDesc`). -/
def getTitleDescNoSrcDesc (cv : String) (c : Config) : Except PyErr (String × String) :=
  match selectTemplates cv c with
  | Except.error e => Except.error e
  | Except.ok td =>
      match augmentSourceNoSrcDesc cv c td.2 with
      | Except.error e => Except.error e
      | Except.ok d1 =>
          let fields := mergedFields c
          match pyFormat td.1 fields with
          | Except.error e => Except.error e
          | Except.ok t =>
              match pyFormat d1 fields with
              | Except.error e => Except.error e
              | Except.ok d2 =>
                  let d3 :=
                    if c.additional_notes ≠ "" then
                      d2 ++ "\n\nAdditional Notes: " ++ c.additional_notes
                    else d2
                  Except.ok (t, d3)

/-- The combined string `get_description` returns (line 356). -/
def getDescription (cv : String) (c : Config) : Except PyErr String :=
  match getTitleDesc cv c with
  | Except.error e => Except.error e
  | Except.ok p => Except.ok (p.1 ++ "\n\n" ++ p.2)

/-- Lines 470-474 of `get_config`: for Feature Removal, the source is forced
to the collector unless the removal reason is Non-Interface, which leaves
the source record untouched (hence unset). -/
def removalSource (reason feature : String) (src : Source) : Source :=
  if reason ≠ "Non-Interface" then ⟨"mdn-bcd-collector", getCollectorTestUrl feature⟩
  else src

-- ---------------------------------------------------------------------------
-- Infrastructure lemmas.
-- ---------------------------------------------------------------------------

lemma append_json_ne (s : String) : s ++ ".json" ≠ s := by
  intro h
  have hlen := congrArg String.length h
  rw [String.length_append] at hlen
  have h5 : (".json" : String).length = 5 := rfl
  rw [h5] at hlen
  omega

/-- A fold that keeps the latest match equals the last match of the list. -/
lemma foldl_lastPrefixMatch (feature : String) :
    ∀ (l : List (String × String × Option String)) (init : Option Category),
      l.foldl
        (fun acc kv =>
          if strStartsWith feature kv.1 then some ⟨kv.1, kv.2.1, kv.2.2⟩ else acc)
        init
        = match lastPrefixMatch feature l with
          | some c => some c
          | none => init := by
  intro l
  induction l with
  | nil => intro init; rfl
  | cons kv r ih =>
      intro init
      simp only [List.foldl_cons, lastPrefixMatch]
      rw [ih]
      cases h : lastPrefixMatch feature r <;>
        by_cases hp : strStartsWith feature kv.1 = true <;>
          simp [h, hp]

/-- Descending through segments whose json-file check does not fire moves the
loop's cursor without producing a result. -/
lemma findLoop_descent (feature : String) (parts : List String) (skip : Bool) :
    ∀ (pre : List String) (cwd cwd' : Option Dir) (cwdPath suff : List String),
      pureDescent feature skip cwd pre = some cwd' →
      findLoop feature parts skip cwd cwdPath (pre ++ suff) =
        findLoop feature parts skip cwd' (cwdPath ++ pre) suff := by
  intro pre
  induction pre with
  | nil =>
      intro cwd cwd' cwdPath suff h
      simp only [pureDescent, Option.some.injEq] at h
      subst h
      simp
  | cons p pr ih =>
      intro cwd cwd' cwdPath suff h
      rw [List.cons_append]
      cases hj : clookup cwd (p ++ ".json") with
      | none =>
          simp only [pureDescent, hj, if_true] at h
          cases hd : clookup cwd p with
          | none => simp [hd] at h
          | some ent =>
              cases ent with
              | file j => simp [hd] at h
              | dir d =>
                  simp only [hd] at h
                  simp only [findLoop, hj, hd]
                  rw [ih (some d) cwd' (cwdPath ++ [p]) suff h]
                  simp
      | some ent =>
          cases ent with
          | dir d' => simp [pureDescent, hj] at h
          | file j =>
              by_cases hsk : skip = true


              · subst hsk
                simp [pureDescent, hj] at h
              · have hs : skip = false := by
                  cases skip
                  · rfl
                  · exact absurd rfl hsk
                subst hs
                cases hw : findFeatureInFile feature j with
                | error e => simp [pureDescent, hj, hw] at h
                | ok b =>
                    cases b with
                    | true => simp [pureDescent, hj, hw] at h
                    | false =>
                        simp only [pureDescent, hj, hw, Bool.not_false,
                          Bool.true_and, if_true] at h
                        cases hd : clookup cwd p with
                        | none => simp [hd] at h
                        | some ent2 =>
                            cases ent2 with
                            | file j2 => simp [hd] at h
                            | dir d =>
                                simp only [hd] at h
                                simp only [findLoop, hj, hw, hd]
                                rw [ih (some d) cwd' (cwdPath ++ [p]) suff h]
                                simp

-- ---------------------------------------------------------------------------
-- Claim C3: last-prefix-match category resolution.
-- ---------------------------------------------------------------------------

/-- **C3.** For every feature identifier, `get_category` returns the
category-table entry whose key is a prefix of the identifier and that occurs
last in table-declaration order among all matching entries
(`lastPrefixMatch`); if no table key is a prefix, it returns the default
category with title "feature" and no label. -/
theorem c3_theorem (f : String) :
    getCategory f =
      (lastPrefixMatch f categoriesList).getD ⟨"", "feature", none⟩ := by
  unfold getCategory
  rw [foldl_lastPrefixMatch]
  cases h : lastPrefixMatch f categoriesList <;> simp [h]

/-- Witness for C3 at a concrete identifier with two overlapping matches
(`css.properties` wins over the earlier broader matches). -/
theorem c3_witness :
    getCategory "css.properties.color" = ⟨"css.properties", "CSS property", some ("data:css")⟩ := by
  rw [c3_theorem ("css.properties.color")]
  rfl

-- ---------------------------------------------------------------------------
-- Claim C4: branch-name derivation.
-- ---------------------------------------------------------------------------

/-- **C4.** `get_branch_name` is a pure function of the config.  For flag
removal by flag it returns `flagremoval/<flag with dots replaced by
dashes>/<browser id>`; otherwise, for any PR type the table defines, it
returns the feature identifier with dots turned to slashes and stars
removed, extended according to which of browser id / branch suffix are set
(`branchNameSpec`, written from the claim's words). -/
theorem c4_theorem (cv : String) (c : Config) :
    (c.flag_removal_type = "by_flag" →
      getBranchName cv c =
        Except.ok ("flagremoval/" ++ strReplace c.flag (".") ("-") ++ "/" ++ c.browser.id)) ∧
    (∀ e, c.flag_removal_type ≠ "by_flag" → prTypeLookup cv c.pr_type = Except.ok e →
      getBranchName cv c = Except.ok (branchNameSpec c e.branch_suffix)) := by
  constructor
  · intro h
    simp [getBranchName, h]
  · intro e hfl hpt
    simp only [getBranchName, branchNameSpec, hfl, if_false, hpt]
    cases hbs : e.branch_suffix with
    | none => by_cases hb : c.browser.id = "" <;> simp [hb]
    | some s =>
        by_cases hb : c.browser.id = "" <;> by_cases hsuf : s = "" <;>
          simp [hb, hsuf]

/-- The claim's concrete flag-removal scenario config
(`flag="MediaRecorder"`, `browser.id="chrome"`). -/
def c4cfgFlag : Config :=
  { pr_type := "Flag Removal", feature := "", category_repr := "",
    file_repr := "None", branch := "", labels_repr := "[]",
    description_repr := "",
    browser := ⟨"chrome", "Chromium", "Chromium (Chrome, Opera, Samsung Internet, WebView Android)"⟩,
    source := ⟨"", ""⟩, content_update_repr := "False",
    additional_notes := "", auto_stage_repr := "False",
    flag_removal_type := "by_flag", flag := "MediaRecorder",
    feature_addition_scope := "", feature_removal_scope := "",
    feature_removal_reason := "", feature_description := none,
    title := none }

/-- Witness for C4: the claim's concrete flag-removal scenario. -/
theorem c4_witness :
    getBranchName "1.0.0" c4cfgFlag = Except.ok "flagremoval/MediaRecorder/chrome" :=
  ( c4_theorem ("1.0.0") c4cfgFlag).1 rfl

-- ---------------------------------------------------------------------------
-- Claim C9: falsy values make `_find_feature_in_file` report absence.
-- ---------------------------------------------------------------------------

/-- **C9.** If every segment of a feature is present as a nested key in a
file but the value reached at some step is falsy, then
`_find_feature_in_file` reports the feature as absent (`ok false`); in
particular `find_file_by_feature` can return Not Found even though the full
key path exists in the candidate file. -/
theorem c9_theorem :
    (∀ (j : JVal) (ks : List String),
       hasKeyPath j ks = true → someStepFalsy j ks = true →
       walkFeature j ks = Except.ok false) ∧
    (∀ (feature p0 : String) (rest : List String) (j : JVal),
       splitDot feature = p0 :: rest →
       hasKeyPath j (p0 :: rest) = true →
       someStepFalsy j (p0 :: rest) = true →
       p0 ≠ "api" →
       strStartsWith feature ("html.elements.input.type_") = false →
       strStartsWith feature ("javascript.builtins.Intl.") = false →
       strStartsWith feature ("javascript.builtins.Temporal.") = false →
       findFileByFeature feature false [(p0 ++ ".json", Entry.file j)] = Except.ok none) := by
  have part1 : ∀ (ks : List String) (j : JVal),
      hasKeyPath j ks = true → someStepFalsy j ks = true →
      walkFeature j ks = Except.ok false := by
    intro ks
    induction ks with
    | nil => intro j _ hf; simp [someStepFalsy] at hf
    | cons p ps ih =>
        intro j hk hf
        cases j with
        | obj fs =>
            cases hv : jlookup fs p with
            | none => simp [hasKeyPath, hv] at hk
            | some v =>
                simp only [hasKeyPath, hv] at hk
                simp only [someStepFalsy, hv] at hf
                cases ht : truthy v with
                | false => simp [walkFeature, hv, ht]
                | true =>
                    simp only [ht, Bool.not_true, Bool.false_or] at hf
                    simp only [walkFeature, hv, ht, if_true]
                    exact ih v hk hf
        | null => simp [hasKeyPath] at hk
        | bool b => simp [hasKeyPath] at hk
        | num n => simp [hasKeyPath] at hk
        | str s => simp [hasKeyPath] at hk
        | arr l => simp [hasKeyPath] at hk
  refine ⟨fun j ks => part1 ks j, ?_⟩
  intro feature p0 rest j hsplit hk hf hapi h1 h2 h3
  have hwalk : findFeatureInFile feature j = Except.ok false := by
    unfold findFeatureInFile
    rw [hsplit]
    exact part1 _ j hk hf
  unfold findFileByFeature
  rw [hsplit]
  simp [findLoop, clookup, dlookup, hwalk, fallback, append_json_ne p0, hapi, h1, h2, h3]

/-- Witness for C9: key path `a` present with value `false`; the file is
reported as not containing the feature and the locator returns Not Found. -/
theorem c9_witness :
    walkFeature (JVal.obj [("a", JVal.bool false)]) ["a"] = Except.ok false ∧
    findFileByFeature "a" false [("a" ++ ".json", Entry.file (JVal.obj [("a", JVal.bool false)]))]
      = Except.ok none := by
  constructor
  · exact c9_theorem.1 (JVal.obj [("a", JVal.bool false)]) ["a"] (by decide) (by decide)
  · exact c9_theorem.2 "a" "a" [] (JVal.obj [("a", JVal.bool false)]) rfl (by decide)
      (by decide) (by decide) (by decide) (by decide) (by decide)

-- ---------------------------------------------------------------------------
-- Claim C1: generic descent locates the file containing the feature.
-- ---------------------------------------------------------------------------

/-- **C1 (amended).** Walking the identifier's segments from the data root,
if a file `<segment>.json` is reached by pure directory descent and
`_find_feature_in_file` succeeds on it — i.e. the identifier's full dotted
path resolves in the file's nested tree with every value along the walk
truthy — then `find_file_by_feature` (allow-first-match unset) returns that
file's path.  (The claim's original "contains the path as nested keys" is
not enough: a falsy value along the walk makes the file be skipped, see
`c1_counterexample`.) -/
theorem c1_theorem (feature : String) (root : Dir) (pre : List String) (part : String)
    (rest : List String) (cwd : Option Dir) (j : JVal)
    (hparts : splitDot feature = pre ++ part :: rest)
    (hdesc : pureDescent feature false (some root) pre = some cwd)
    (hfile : clookup cwd (part ++ ".json") = some (Entry.file j))
    (hfound : findFeatureInFile feature j = Except.ok true) :
    findFileByFeature feature false root = Except.ok (some (pre ++ [part ++ ".json"])) := by
  unfold findFileByFeature
  rw [hparts]
  rw [findLoop_descent feature (pre ++ part :: rest) false pre (some root) cwd []
    (part :: rest) hdesc]
  simp [findLoop, hfile, hfound]

/-- Counterexample to C1 as stated: the file `a.json` at the data root
contains the feature `a`'s full dotted path as nested keys (value `false`),
is trivially reached by pure directory descent, yet the locator returns Not
Found rather than that file. -/
theorem c1_counterexample :
    hasKeyPath (JVal.obj [("a", JVal.bool false)]) (splitDot "a") = true ∧
    findFileByFeature "a" false [("a.json", Entry.file (JVal.obj [("a", JVal.bool false)]))]
      = Except.ok none :=
  ⟨rfl, rfl⟩

/-- The data-file content for the C1 witness: `css/properties.json` holding
the full dotted path `css.properties.color` with truthy values. -/
def c1Content : JVal :=
  JVal.obj [("css", JVal.obj [("properties",
    JVal.obj [("color", JVal.obj [("__compat", JVal.str "x")])])])]

/-- The data root for the C1 witness. -/
def c1Root : Dir := [("css", Entry.dir [("properties.json", Entry.file c1Content)])]

/-- Witness for C1: `css.properties.color` found in `css/properties.json`
after descending through `css`. -/
theorem c1_witness :
    findFileByFeature "css.properties.color" false c1Root
      = Except.ok (some ["css", "properties.json"]) := by
  exact c1_theorem "css.properties.color" c1Root ["css"] "properties" ["color"]
    (some [("properties.json", Entry.file c1Content)]) c1Content rfl rfl rfl rfl

-- ---------------------------------------------------------------------------
-- Claim C8: the `html.elements.input.type_<X>` fallback.
-- ---------------------------------------------------------------------------

/-- A prefix decomposition from `strStartsWith`. -/
lemma strStartsWith_exists (s p : String) (h : strStartsWith s p = true) :
    ∃ t, s.data = p.data ++ t := by
  unfold strStartsWith at h
  obtain ⟨t, ht⟩ := List.isPrefixOf_iff_prefix.mp h
  exact ⟨t, ht.symm⟩

/-- A feature starting with `html.elements.input.type_` splits with head
segment `html`. -/
lemma splitDot_head_html (feature : String)
    (h : strStartsWith feature ("html.elements.input.type_") = true) :
    (splitDot feature).headD "" = "html" := by
  obtain ⟨t, ht⟩ := strStartsWith_exists feature ("html.elements.input.type_") h
  unfold splitDot
  rw [ht]
  rfl

/-- **C8 (amended).** For a feature matching `html.elements.input.type_<X>`,
when the generic walk reaches a step where neither the candidate file nor
the candidate directory exists, the code checks a file named after the
fourth segment with *every occurrence* of `"type_"` removed (Python
`str.replace`, not a prefix strip); if that file exists at the cursor and
`_find_feature_in_file` succeeds on it, `find_file_by_feature` returns it. -/
theorem c8_theorem (feature : String) (root : Dir) (pre : List String) (part p3 : String)
    (rest : List String) (cwd : Option Dir) (j : JVal)
    (hpfx : strStartsWith feature ("html.elements.input.type_") = true)
    (hparts : splitDot feature = pre ++ part :: rest)
    (hdesc : pureDescent feature false (some root) pre = some cwd)
    (hnofile : clookup cwd (part ++ ".json") = none)
    (hnodir : clookup cwd part = none)
    (hp3 : (splitDot feature).get? 3 = some p3)
    (hfile : clookup cwd (strReplace p3 ("type_") ("") ++ ".json") = some (Entry.file j))
    (hfound : findFeatureInFile feature j = Except.ok true) :
    findFileByFeature feature false root =
      Except.ok (some (pre ++ [strReplace p3 ("type_") ("") ++ ".json"])) := by
  have hhead : (splitDot feature).headD "" = "html" := splitDot_head_html feature hpfx
  rw [hparts] at hhead hp3
  unfold findFileByFeature
  rw [hparts]
  rw [findLoop_descent feature (pre ++ part :: rest) false pre (some root) cwd []
    (part :: rest) hdesc]
  simp only [findLoop, hnofile, hnodir, List.nil_append]
  simp only [fallback, hhead, hp3, hpfx, checkFile, hfile, hfound]
  rw [if_neg (by decide : ¬(("html" : String) = "api"))]
  simp

/-- The file content for the C8 counterexample and its claim-side check:
the full dotted path of `html.elements.input.type_type_a`, truthy. -/
def c8Content : JVal :=
  JVal.obj [("html", JVal.obj [("elements", JVal.obj [("input",
    JVal.obj [("type_type_a", JVal.bool true)])])])]

/-- Counterexample to C8 as stated: for
`html.elements.input.type_type_a`, the fourth segment with the `type_`
*prefix* stripped is `type_a`, and `type_a.json` exists at the cursor and
contains the feature; but the code removes *every* `type_` occurrence and
looks for `a.json`, so it returns Not Found instead of `type_a.json`. -/
theorem c8_counterexample :
    strStartsWith "html.elements.input.type_type_a" ("html.elements.input.type_") = true ∧
    findFeatureInFile "html.elements.input.type_type_a" c8Content = Except.ok true ∧
    findFileByFeature "html.elements.input.type_type_a" false
        [("type_a.json", Entry.file c8Content)]
      = Except.ok none :=
  ⟨rfl, rfl, rfl⟩

/-- The file content for the C8 witness: the full dotted path of
`html.elements.input.type_checkbox`, truthy. -/
def c8WContent : JVal :=
  JVal.obj [("html", JVal.obj [("elements", JVal.obj [("input",
    JVal.obj [("type_checkbox", JVal.bool true)])])])]

/-- Witness for C8: `html.elements.input.type_checkbox` found in
`checkbox.json` via the input-type fallback at the data root. -/
theorem c8_witness :
    findFileByFeature "html.elements.input.type_checkbox" false
        [("checkbox.json", Entry.file c8WContent)]
      = Except.ok (some ["checkbox.json"]) := by
  exact c8_theorem "html.elements.input.type_checkbox"
    [("checkbox.json", Entry.file c8WContent)] [] "html" "type_checkbox"
    ["elements", "input", "type_checkbox"]
    (some [("checkbox.json", Entry.file c8WContent)]) c8WContent
    rfl rfl rfl rfl rfl rfl rfl rfl

-- ---------------------------------------------------------------------------
-- Claim C10: single-segment `api` raises IndexError.
-- ---------------------------------------------------------------------------

/-- **C10.** For the single-segment feature `"api"`, when neither `api.json`
nor a directory `api` exists at the data root, `find_file_by_feature` raises
an index-out-of-range error (accessing `parts[1]` in the `_globals`
fallback) instead of returning Not Found. -/
theorem c10_theorem (root : Dir)
    (h1 : dlookup root "api.json" = none) (h2 : dlookup root "api" = none) :
    findFileByFeature "api" false root = Except.error PyErr.indexError := by
  have hsplit : splitDot "api" = ["api"] := rfl
  have hjson : ("api" ++ ".json" : String) = "api.json" := rfl
  unfold findFileByFeature
  rw [hsplit]
  simp only [findLoop, clookup, hjson, h1, h2]
  simp [fallback]

/-- Witness for C10 at the empty data root. -/
theorem c10_witness :
    findFileByFeature "api" false [] = Except.error PyErr.indexError :=
  c10_theorem [] rfl rfl

-- ---------------------------------------------------------------------------
-- Formatter infrastructure for the assembler claims.
-- ---------------------------------------------------------------------------

lemma strData_append : ∀ (a b : String), (a ++ b).data = a.data ++ b.data
  | ⟨_⟩, ⟨_⟩ => rfl

lemma strApp_assoc : ∀ (a b c : String), a ++ b ++ c = a ++ (b ++ c)
  | ⟨la⟩, ⟨lb⟩, ⟨lc⟩ => congrArg String.mk (List.append_assoc la lb lc)

lemma strApp_empty : ∀ (a : String), a ++ "" = a
  | ⟨la⟩ => congrArg String.mk (List.append_nil la)

lemma lb_ne_rb : ¬(lb = rb) := by decide

lemma rb_ne_lb : ¬(rb = lb) := by decide

/-- If formatting a string succeeds, every placeholder referenced in any
prefix of it resolves in the field set. -/
lemma pyFmtGo_ok_refs (f : List (String × String)) :
    ∀ (l : List Char) (m : FmtMode) (u out : List Char),
      pyFmtGo f m (l ++ u) = Except.ok out →
      ∀ n ∈ refNamesGo m l, alookup f n ≠ none := by
  intro l
  induction l with
  | nil =>
      intro m u out _ n hn
      cases m <;> simp [refNamesGo] at hn
  | cons c cs ih =>
      intro m u out hok n hn
      rw [List.cons_append] at hok
      cases m with
      | lit =>
          by_cases h1 : c = lb
          · simp [pyFmtGo, h1, lb_ne_rb] at hok
            simp [refNamesGo, h1, lb_ne_rb] at hn
            exact ih FmtMode.sawL u out hok n hn
          · by_cases h2 : c = rb
            · simp [pyFmtGo, h1, h2, rb_ne_lb] at hok
              simp [refNamesGo, h1, h2, rb_ne_lb] at hn
              exact ih FmtMode.sawR u out hok n hn
            · simp [pyFmtGo, h1, h2] at hok
              simp [refNamesGo, h1, h2] at hn
              cases h' : pyFmtGo f FmtMode.lit (cs ++ u) with
              | error e => rw [h'] at hok; simp at hok
              | ok r => exact ih FmtMode.lit u r h' n hn
      | sawL =>
          by_cases h1 : c = lb
          · simp [pyFmtGo, h1, lb_ne_rb] at hok
            simp [refNamesGo, h1, lb_ne_rb] at hn
            cases h' : pyFmtGo f FmtMode.lit (cs ++ u) with
            | error e => rw [h'] at hok; simp at hok
            | ok r => exact ih FmtMode.lit u r h' n hn
          · by_cases h2 : c = rb
            · simp [pyFmtGo, h1, h2, rb_ne_lb] at hok
              simp [refNamesGo, h1, h2, rb_ne_lb] at hn
              cases hemp : alookup f "" with
              | none => rw [hemp] at hok; simp at hok
              | some v =>
                  rw [hemp] at hok
                  rcases hn with hn | hn
                  · subst hn; rw [hemp]; exact Option.some_ne_none v
                  · cases h' : pyFmtGo f FmtMode.lit (cs ++ u) with
                    | error e => rw [h'] at hok; simp at hok
                    | ok r => exact ih FmtMode.lit u r h' n hn
            · simp [pyFmtGo, h1, h2] at hok
              simp [refNamesGo, h1, h2] at hn
              exact ih (FmtMode.name [c]) u out hok n hn
      | name acc =>
          by_cases h2 : c = rb
          · simp [pyFmtGo, h2, rb_ne_lb] at hok
            simp [refNamesGo, h2, rb_ne_lb] at hn
            cases hnm : alookup f (String.mk acc.reverse) with
            | none => rw [hnm] at hok; simp at hok
            | some v =>
                rw [hnm] at hok
                rcases hn with hn | hn
                · subst hn; rw [hnm]; exact Option.some_ne_none v
                · cases h' : pyFmtGo f FmtMode.lit (cs ++ u) with
                  | error e => rw [h'] at hok; simp at hok
                  | ok r => exact ih FmtMode.lit u r h' n hn
          · by_cases h1 : c = lb
            · simp [pyFmtGo, h2, h1, lb_ne_rb] at hok
            · simp [pyFmtGo, h1, h2] at hok
              simp [refNamesGo, h1, h2] at hn
              exact ih (FmtMode.name (c :: acc)) u out hok n hn
      | sawR =>
          by_cases h2 : c = rb
          · simp [pyFmtGo, h2, rb_ne_lb] at hok
            simp [refNamesGo, h2, rb_ne_lb] at hn
            cases h' : pyFmtGo f FmtMode.lit (cs ++ u) with
            | error e => rw [h'] at hok; simp at hok
            | ok r => exact ih FmtMode.lit u r h' n hn
          · simp [pyFmtGo, h2] at hok

/-- The description-append stage only extends the description. -/
lemma augmentDescPart_shape (c : Config) (sd : DataSource) (d x : String)
    (h : augmentDescPart c sd d = Except.ok x) : ∃ u, x = d ++ u := by
  unfold augmentDescPart at h
  repeat' split at h
  all_goals first
    | exact (Except.noConfusion h)
    | (injection h with h
       subst h
       first
         | exact ⟨"", (strApp_empty d).symm⟩
         | exact ⟨_, strApp_assoc _ _ _⟩)

/-- The source-append stage only extends the description. -/
lemma augmentSrcPart_shape (c : Config) (sd : DataSource) (d1 x : String)
    (h : augmentSrcPart c sd d1 = Except.ok x) : ∃ u, x = d1 ++ u := by
  unfold augmentSrcPart at h
  repeat' split at h
  all_goals first
    | exact (Except.noConfusion h)
    | (injection h with h
       subst h
       first
         | exact ⟨"", (strApp_empty d1).symm⟩
         | exact ⟨_, strApp_assoc _ _ _⟩)

/-- Whatever source augmentation produces only extends the description. -/
lemma augmentSource_shape (cv : String) (c : Config) (d d1 : String)
    (h : augmentSource cv c d = Except.ok d1) : ∃ u, d1 = d ++ u := by
  unfold augmentSource at h
  repeat' split at h
  all_goals first
    | exact (Except.noConfusion h)
    | (injection h with h
       subst h
       first
         | exact ⟨"", (strApp_empty d).symm⟩
         | exact ⟨_, strApp_assoc _ _ _⟩)
    | (rename_i dmid heq
       obtain ⟨u1, hu1⟩ := augmentDescPart_shape c _ d dmid heq
       obtain ⟨u2, hu2⟩ := augmentSrcPart_shape c _ dmid d1 h
       exact ⟨u1 ++ u2, by rw [hu2, hu1, strApp_assoc]⟩)

-- ---------------------------------------------------------------------------
-- Claim C5: Feature Removal never appends the data-source description.
-- ---------------------------------------------------------------------------

/-- **C5.** For every config with PR type Feature Removal, the data-source
description template is never appended: the augmentation step coincides with
the variant that has that branch removed, and so does the whole assembler.
When the source type is unset — as the Non-Interface removal reason leaves
it (`removalSource`) — no source paragraph at all is appended. -/
theorem c5_theorem (cv : String) (c : Config) (d : String)
    (h : c.pr_type = "Feature Removal") :
    augmentSource cv c d = augmentSourceNoSrcDesc cv c d ∧
    getTitleDesc cv c = getTitleDescNoSrcDesc cv c ∧
    (c.source.type = "" → augmentSource cv c d = Except.ok d) ∧
    (∀ feature src0, removalSource ("Non-Interface") feature src0 = src0) := by
  have part1 : ∀ d', augmentSource cv c d' = augmentSourceNoSrcDesc cv c d' := by
    intro d'
    unfold augmentSource augmentSourceNoSrcDesc
    by_cases h0 : c.source.type = ""
    · simp [h0]
    · rw [if_neg h0, if_neg h0]
      cases hsd : alookup (dataSources cv) c.source.type with
      | none => rfl
      | some sd =>
          simp only []
          simp [augmentDescPart, augmentSrcPart, h]
  refine ⟨part1 d, ?_, ?_, ?_⟩
  · unfold getTitleDesc getTitleDescNoSrcDesc
    cases hsel : selectTemplates cv c with
    | error e => rfl
    | ok td =>
        simp only []
        rw [part1 td.2]
  · intro h0
    unfold augmentSource
    simp [h0]
  · intro feature src0
    unfold removalSource
    simp

/-- Config for the C5 witness: a Non-Interface Feature Removal, whose source
record is exactly what `removalSource` leaves. -/
def c5cfg : Config :=
  { pr_type := "Feature Removal", feature := "api.FooBar",
    category_repr := "", file_repr := "None", branch := "",
    labels_repr := "[]", description_repr := "",
    browser := ⟨"", "", ""⟩,
    source := removalSource ("Non-Interface") "api.FooBar" ⟨"", ""⟩,
    content_update_repr := "False", additional_notes := "",
    auto_stage_repr := "False", flag_removal_type := "", flag := "",
    feature_addition_scope := "", feature_removal_scope := "entire",
    feature_removal_reason := "Non-Interface",
    feature_description := some "`FooBar` API",
    title := some "FooBar API" }

/-- Witness for C5: with the Non-Interface reason the source stays unset and
the augmentation step is the identity on the description. -/
theorem c5_witness :
    augmentSource "1.0.0" c5cfg "base description"
      = augmentSourceNoSrcDesc "1.0.0" c5cfg "base description" ∧
    augmentSource "1.0.0" c5cfg "base description" = Except.ok "base description" :=
  ⟨( c5_theorem ("1.0.0") c5cfg ("base description") rfl).1,
   ( c5_theorem ("1.0.0") c5cfg ("base description") rfl).2.2.1 rfl⟩

-- ---------------------------------------------------------------------------
-- Claim C6: a missing placeholder is fatal.
-- ---------------------------------------------------------------------------

/-- **C6.** If the selected title or (built) description template references
a named placeholder that is absent from the merged field set, the assembler
fails with an uncaught error instead of producing a title/description. -/
theorem c6_theorem (cv : String) (c : Config) (td : String × String) (p : String)
    (hsel : selectTemplates cv c = Except.ok td)
    (hp : p ∈ refNames td.1 ∨ p ∈ refNames td.2)
    (habs : alookup (mergedFields c) p = none) :
    ∃ e, getTitleDesc cv c = Except.error e := by
  unfold getTitleDesc
  rw [hsel]
  simp only []
  cases haug : augmentSource cv c td.2 with
  | error e => exact ⟨e, rfl⟩
  | ok d1 =>
      simp only []
      cases hft : pyFormat td.1 (mergedFields c) with
      | error e => exact ⟨e, rfl⟩
      | ok t' =>
          simp only []
          rcases hp with hp | hp
          · exfalso
            unfold pyFormat at hft
            cases hgo : pyFmtGo (mergedFields c) FmtMode.lit td.1.data with
            | error e => rw [hgo] at hft; simp at hft
            | ok cs =>
                have happ : pyFmtGo (mergedFields c) FmtMode.lit (td.1.data ++ []) = Except.ok cs := by
                  rw [List.append_nil]; exact hgo
                exact pyFmtGo_ok_refs (mergedFields c) td.1.data FmtMode.lit [] cs happ p hp habs
          · cases hfd : pyFormat d1 (mergedFields c) with
            | error e => exact ⟨e, rfl⟩
            | ok d2 =>
                exfalso
                obtain ⟨u, hu⟩ := augmentSource_shape cv c td.2 d1 haug
                unfold pyFormat at hfd
                cases hgo : pyFmtGo (mergedFields c) FmtMode.lit d1.data with
                | error e => rw [hgo] at hfd; simp at hfd
                | ok cs =>
                    have happ : pyFmtGo (mergedFields c) FmtMode.lit (td.2.data ++ u.data)
                        = Except.ok cs := by
                      rw [← strData_append, ← hu]; exact hgo
                    exact pyFmtGo_ok_refs (mergedFields c) td.2.data FmtMode.lit u.data cs
                      happ p hp habs

/-- Config for the C6 witness: a Compat Data Corrections config whose dict
never got a `title` key (as in the flag-removal wizard path), so the title
template's `{title}` placeholder is unresolvable. -/
def c6cfg : Config :=
  { pr_type := "Compat Data Corrections", feature := "api.Foo",
    category_repr := "", file_repr := "None", branch := "",
    labels_repr := "[]", description_repr := "",
    browser := ⟨"firefox", "Firefox", "Firefox and Firefox Android"⟩,
    source := ⟨"", ""⟩,
    content_update_repr := "False", additional_notes := "",
    auto_stage_repr := "False", flag_removal_type := "", flag := "",
    feature_addition_scope := "", feature_removal_scope := "",
    feature_removal_reason := "",
    feature_description := some "`Foo` API",
    title := none }

/-- Witness for C6: the missing `title` key makes the assembler fail. -/
theorem c6_witness : ∃ e, getTitleDesc "1.0.0" c6cfg = Except.error e :=
  c6_theorem "1.0.0" c6cfg
    ("Update {browser} data for {title}",
     "This PR updates and corrects version values for {browser_full} for the {feature_description}.")
    "title" rfl (Or.inl (by decide)) rfl

-- ---------------------------------------------------------------------------
-- Claim C7: the Additional Notes paragraph.
-- ---------------------------------------------------------------------------

/-- **C7.** When `additional_notes` is non-empty the assembled description
is the notes-free description with a final `"Additional Notes: <notes>"`
paragraph appended after everything else; when it is empty the assembler
coincides with the variant that has no notes step at all. -/
theorem c7_theorem (cv : String) (c : Config) :
    (c.additional_notes = "" → getTitleDesc cv c = getTitleDescNoNotes cv c) ∧
    (c.additional_notes ≠ "" → ∀ t d, getTitleDescNoNotes cv c = Except.ok (t, d) →
      getTitleDesc cv c = Except.ok (t, d ++ "\n\nAdditional Notes: " ++ c.additional_notes)) := by
  constructor
  · intro h
    unfold getTitleDesc getTitleDescNoNotes
    cases hsel : selectTemplates cv c with
    | error e => rfl
    | ok td =>
        simp only []
        cases haug : augmentSource cv c td.2 with
        | error e => rfl
        | ok d1 =>
            simp only []
            cases hft : pyFormat td.1 (mergedFields c) with
            | error e => rfl
            | ok t' =>
                simp only []
                cases hfd : pyFormat d1 (mergedFields c) with
                | error e => rfl
                | ok d2 => simp [h]
  · intro h t d hno
    unfold getTitleDesc
    unfold getTitleDescNoNotes at hno
    cases hsel : selectTemplates cv c with
    | error e => rw [hsel] at hno; simp at hno
    | ok td =>
        rw [hsel] at hno
        simp only [] at hno ⊢
        cases haug : augmentSource cv c td.2 with
        | error e => rw [haug] at hno; simp at hno
        | ok d1 =>
            rw [haug] at hno
            simp only [] at hno ⊢
            cases hft : pyFormat td.1 (mergedFields c) with
            | error e => rw [hft] at hno; simp at hno
            | ok t' =>
                rw [hft] at hno
                simp only [] at hno ⊢
                cases hfd : pyFormat d1 (mergedFields c) with
                | error e => rw [hfd] at hno; simp at hno
                | ok d2 =>
                    rw [hfd] at hno
                    simp only [] at hno
                    simp only [Except.ok.injEq, Prod.mk.injEq] at hno
                    obtain ⟨ht, hd⟩ := hno
                    subst ht
                    subst hd
                    simp [h]

/-- Config for the C7 witness: a Metadata Corrections config with non-empty
notes. -/
def c7cfg : Config :=
  { pr_type := "Metadata Corrections", feature := "api.Foo",
    category_repr := "", file_repr := "None", branch := "",
    labels_repr := "[]", description_repr := "",
    browser := ⟨"", "", ""⟩,
    source := ⟨"", ""⟩,
    content_update_repr := "False", additional_notes := "Something",
    auto_stage_repr := "False", flag_removal_type := "", flag := "",
    feature_addition_scope := "", feature_removal_scope := "",
    feature_removal_reason := "",
    feature_description := some "`Foo` API",
    title := some "Foo API" }

set_option maxRecDepth 8192 in
/-- Witness for C7: the notes paragraph lands after the whole description. -/
theorem c7_witness :
    getTitleDesc "1.0.0" c7cfg
      = Except.ok ("Update metadata for Foo API",
          "This PR updates and corrects the metadata (spec URLs, descriptions, statuses, etc.) for the `Foo` API."
            ++ "\n\nAdditional Notes: " ++ "Something") := by
  exact ( c7_theorem ("1.0.0") c7cfg).2 (by decide) ("Update metadata for Foo API")
    "This PR updates and corrects the metadata (spec URLs, descriptions, statuses, etc.) for the `Foo` API."
    rfl

-- ---------------------------------------------------------------------------
-- Claim C2: the Real Values Additions scenario.
-- ---------------------------------------------------------------------------

/-- The scenario config of claim C2, with the derived fields
(`feature_description`, `title`) populated the way `get_config` populates
them (see `c2_theorem` for the connection). -/
def c2cfg : Config :=
  { pr_type := "Real Values Additions"
    feature := "api.AbortController.abort"
    category_repr := categoryRepr ⟨"api", "API", some ("data:api")⟩
    file_repr := "api/AbortController.json"
    branch := ""
    labels_repr := "[" ++ aposS ++ "data:api" ++ aposS ++ "]"
    description_repr := ""
    browser := ⟨"firefox", "Firefox", "Firefox and Firefox Android"⟩
    source := ⟨"Bug", "1234567"⟩
    content_update_repr := "False"
    additional_notes := ""
    auto_stage_repr := "True"
    flag_removal_type := ""
    flag := ""
    feature_addition_scope := ""
    feature_removal_scope := ""
    feature_removal_reason := ""
    feature_description := some "`abort` member of the `AbortController` API"
    title := some "api.AbortController.abort" }

/-- The title the code actually assembles for the C2 scenario: the full
dotted identifier, because `get_feature_title` returns the identifier
unchanged whenever the feature has a sub-member path. -/
def c2Title : String := "Add Firefox versions for api.AbortController.abort"

/-- The description the code assembles for the C2 scenario. -/
def c2Desc : String :=
  "This PR replaces `true`/`null` values with exact version numbers (or `false`) for Firefox and Firefox Android for the `abort` member of the `AbortController` API. The data comes from a bug in the web browser"
    ++ aposS ++ "s bug tracker.\n\nBug: 1234567"

set_option maxRecDepth 16384 in
/-- Counterexample to C2 as stated: the assembled title is
`"Add Firefox versions for api.AbortController.abort"`, not
`"Add Firefox versions for AbortController abort"`. -/
theorem c2_counterexample :
    getTitleDesc "1.0.0" c2cfg = Except.ok (c2Title, c2Desc) ∧
    c2Title ≠ "Add Firefox versions for AbortController abort" :=
  ⟨rfl, by decide⟩

set_option maxRecDepth 16384 in
/-- **C2 (amended).** For the scenario config (PR type Real Values
Additions, feature `api.AbortController.abort`, Firefox, Bug 1234567, empty
notes), for any collector version: the derived category/title/description
fields are as `get_config` computes them, the assembled title is
`"Add Firefox versions for api.AbortController.abort"` (the full dotted
identifier — not the claim's `"AbortController abort"`), the description
contains `"Bug: 1234567"` and no "Additional Notes" paragraph, and the
branch name is `"api/AbortController/abort/firefox-real-values"`. -/
theorem c2_theorem (cv : String) :
    getCategory "api.AbortController.abort" = ⟨"api", "API", some ("data:api")⟩ ∧
    getFeatureTitle "api.AbortController.abort" (some ⟨"api", "API", some ("data:api")⟩)
      = Except.ok "api.AbortController.abort" ∧
    getFeatureDescription "api.AbortController.abort" ⟨"api", "API", some ("data:api")⟩
      = Except.ok "`abort` member of the `AbortController` API" ∧
    getTitleDesc cv c2cfg = Except.ok (c2Title, c2Desc) ∧
    strContains c2Desc ("Bug: 1234567") = true ∧
    strContains c2Desc ("Additional Notes") = false ∧
    getBranchName cv c2cfg = Except.ok "api/AbortController/abort/firefox-real-values" := by
  refine ⟨rfl, rfl, rfl, rfl, by decide, by decide, rfl⟩

set_option maxRecDepth 16384 in
/-- Witness for C2 at a concrete collector version. -/
theorem c2_witness :
    getTitleDesc "1.0.0" c2cfg = Except.ok (c2Title, c2Desc) ∧
    getBranchName "1.0.0" c2cfg = Except.ok "api/AbortController/abort/firefox-real-values" :=
  ⟨( c2_theorem ("1.0.0")).2.2.2.1, ( c2_theorem ("1.0.0")).2.2.2.2.2.2⟩

end AutoPr
